import Mathlib

/-!
Shallow embedding of the SLA-aware energy-conscious scheduler
(`src/Scheduler.cpp`: the policy built around `mips_util_map`,
`machine_with_task`, `migrating_vms` and `pendingAttachments`), together
with theorems checking the specification's claims about it.

Modelling conventions:
* C++ `double` quantities (MIPS demand, utilisation ratios) are modelled as
  exact rationals `ℚ`; the comparisons `< 1.0`, `> 0.9`, `- 0.1` become the
  corresponding exact rational comparisons.
* `Time_t` values (`arrival`, `target_completion`) are modelled as `Int`
  microseconds: the typedef (`SimTypes.h`) is not part of the scheduler
  sources, and the specification's wording ("guarded against zero/negative
  denominators") treats the difference `target_completion - arrival` as a
  quantity that can be zero or negative, so the subtraction is the
  mathematical one on `Int`.
* `std::map<K,V>` with `operator[]` default-insertion is modelled as a total
  function with default value (`Nat → ℚ` defaulting to `0`, matching
  `mips_util_map.count(m) ? mips_util_map[m] : 0.0`), except
  `machine_with_task`, where presence of a key is observable
  (`TaskComplete` default-inserts machine id `0` for an absent task), so it
  is `Nat → Option Nat`.
* `std::set<VMId_t>` becomes `Finset ℕ`; vectors become `List`.
* Simulator read-calls (`Machine_GetInfo`, `VM_GetInfo`, `GetTaskInfo`,
  `Machine_GetTotal`) are snapshots supplied by an `Env`; within a single
  up-call the C++ simulator state does not change, so `Env` is fixed.
* Member-variable reads of the C++ `Scheduler` object become explicit
  arguments: helpers receive exactly the state components the C++ method
  reads, and the event-handler functions take and return the whole state.
* Down-calls with effects (`Machine_SetState`, `VM_Create`, `VM_AddTask`,
  `VM_Migrate`) are recorded in an emitted `DownCall` list; `VM_Create`'s
  fresh id is provided as an argument.
* `SimOutput` logging is dropped.
-/

namespace CloudSim

/-- CPU architectures (`CPUType_t`). -/
inductive CPUType
  | X86
  | ARM
  | RISCV
  | POWER
deriving DecidableEq

/-- Guest OS types (`VMType_t`). -/
inductive VMType
  | LINUX
  | LINUX_RT
  | WIN
  | AIX
deriving DecidableEq

/-- SLA classes (`SLAType_t`). -/
inductive SLAType
  | SLA0
  | SLA1
  | SLA2
  | SLA3
deriving DecidableEq

/-- Task priorities (`Priority_t`). -/
inductive Priority
  | HIGH_PRIORITY
  | MID_PRIORITY
  | LOW_PRIORITY
deriving DecidableEq

/-- Machine S-states (`MachineState_t`). -/
inductive MachineState
  | S0
  | S0i1
  | S1
  | S2
  | S3
  | S4
  | S5
deriving DecidableEq

/-- CPU P-states (`CPUPerformance_t`). -/
inductive CPUPerformance
  | P0
  | P1
  | P2
  | P3
deriving DecidableEq

/-- The fields of `MachineInfo_t` that the scheduler reads. -/
structure MachineInfo where
  cpu : CPUType
  memory_size : Nat
  memory_used : Nat
  gpus : Bool
  performance : List Nat
  s_state : MachineState
  p_state : CPUPerformance
deriving DecidableEq

/-- The fields of `VMInfo_t` that the scheduler reads. -/
structure VMInfo where
  active_tasks : List Nat
  cpu : CPUType
  machine_id : Nat
  vm_type : VMType
deriving DecidableEq

/-- The fields of `TaskInfo_t` that the scheduler reads (times in µs). -/
structure TaskInfo where
  total_instructions : Nat
  arrival : Int
  target_completion : Int
  gpu_capable : Bool
  required_cpu : CPUType
  required_memory : Nat
  required_sla : SLAType
  required_vm : VMType
deriving DecidableEq

/-- The simulator as seen through the read-only down-calls. -/
structure Env where
  numMachines : Nat
  machineInfo : Nat → MachineInfo
  vmInfo : Nat → VMInfo
  taskInfo : Nat → TaskInfo

/-- An entry of the pending-attachment table (`struct PendingAttachment`). -/
structure PendingAttachment where
  vm : Nat
  machine_id : Nat
  task_id : Nat
  priority : Priority
  demand : ℚ
deriving DecidableEq

/-- The scheduler's member variables. -/
structure SchedState where
  machines : List Nat
  vms : List Nat
  mips_util_map : Nat → ℚ
  machine_with_task : Nat → Option Nat
  migrating_vms : Finset Nat
  pendingAttachments : List PendingAttachment

/-- Effectful down-calls issued by the scheduler, in program order. -/
inductive DownCall
  | setState (machine_id : Nat) (s : MachineState)
  | vmCreate (vm_type : VMType) (cpu : CPUType) (vm : Nat)
  | vmAddTask (vm : Nat) (task_id : Nat) (p : Priority)
  | vmMigrate (vm : Nat) (machine_id : Nat)
deriving DecidableEq

/-- `Scheduler::MigrationComplete`: erase the VM from `migrating_vms`;
nothing else is touched (the log line is dropped). -/
def MigrationComplete (st : SchedState) (vm_id : Nat) : SchedState :=
  { st with migrating_vms := st.migrating_vms.erase vm_id }

/-- `Scheduler::CalculateTaskCPUUtilization`: demand in MIPS =
(total instructions / 1e6) / (runtime in seconds), where runtime is
`target_completion - arrival` µs, replaced by 1 µs when ≤ 0. -/
def CalculateTaskCPUUtilization (env : Env) (task_id : Nat) : ℚ :=
  let task := env.taskInfo task_id
  let runtime : ℚ := ((task.target_completion - task.arrival : Int) : ℚ)
  let runtime := if runtime ≤ 0 then 1 else runtime
  let runtime_sec := runtime / 1000000
  ((task.total_instructions : ℚ) / 1000000) / runtime_sec

/-- `Scheduler::CalculateMachineMIPS`: the MIPS rating at the machine's
current P-state (`performance[0..3]`, `default` = index 3). -/
def CalculateMachineMIPS (env : Env) (machine_id : Nat) : Nat :=
  let machine_info := env.machineInfo machine_id
  match machine_info.p_state with
  | .P0 => machine_info.performance.getD 0 0
  | .P1 => machine_info.performance.getD 1 0
  | .P2 => machine_info.performance.getD 2 0
  | .P3 => machine_info.performance.getD 3 0

/-- `Scheduler::CalculateCPUUtilization`: committed MIPS over capacity,
capacity replaced by 1 when ≤ 0. `load` is the member `mips_util_map`. -/
def CalculateCPUUtilization (env : Env) (load : Nat → ℚ) (machine_id : Nat) : ℚ :=
  let required_mips := load machine_id
  let machine_capacity : ℚ := (CalculateMachineMIPS env machine_id : ℚ)
  let machine_capacity := if machine_capacity ≤ 0 then 1 else machine_capacity
  required_mips / machine_capacity

/-- `Scheduler::CalculateMemoryUtilization`: used over total memory. -/
def CalculateMemoryUtilization (env : Env) (machine_id : Nat) : ℚ :=
  let machine_info := env.machineInfo machine_id
  (machine_info.memory_used : ℚ) / (machine_info.memory_size : ℚ)

/-- The sort key of `Scheduler::SortMachinesByUtilization`:
max(cpu utilisation, memory utilisation). -/
def machineUtilKey (env : Env) (load : Nat → ℚ) (machine_id : Nat) : ℚ :=
  max (CalculateCPUUtilization env load machine_id)
    (CalculateMemoryUtilization env machine_id)

/-- Ascending insertion for the utilisation sort (comparator `utilA < utilB`). -/
def insertAsc (env : Env) (load : Nat → ℚ) (x : Nat) : List Nat → List Nat
  | [] => [x]
  | y :: ys =>
    if machineUtilKey env load x < machineUtilKey env load y then x :: y :: ys
    else y :: insertAsc env load x ys

/-- Insertion sort of machine ids by ascending utilisation key. -/
def sortMachinesAux (env : Env) (load : Nat → ℚ) : List Nat → List Nat
  | [] => []
  | x :: xs => insertAsc env load x (sortMachinesAux env load xs)

/-- `Scheduler::SortMachinesByUtilization`: a copy of `machines` sorted
ascending by `machineUtilKey`. -/
def SortMachinesByUtilization (env : Env) (st : SchedState) : List Nat :=
  sortMachinesAux env st.mips_util_map st.machines

/-- `Scheduler::IsVMReady`: not migrating, attached to a valid machine id,
and the host machine is not powered off. `migrating` is the member
`migrating_vms`. -/
def IsVMReady (env : Env) (migrating : Finset Nat) (vm : Nat) : Bool :=
  if vm ∈ migrating then false
  else
    let info := env.vmInfo vm
    if info.machine_id > env.numMachines then false
    else
      let machineInfo := env.machineInfo info.machine_id
      if machineInfo.s_state = .S5 then false else true

/-- The aggregate MIPS demand of a VM's active tasks (`vmTotalDemand` in
`Scheduler::MigrateVM`). -/
def vmAggregateDemand (env : Env) (vm : Nat) : ℚ :=
  ((env.vmInfo vm).active_tasks.map (CalculateTaskCPUUtilization env)).sum

/-- `Scheduler::MigrateVM`: re-point every active task of the VM to the
target machine, move the aggregate demand from source to target in
`mips_util_map`, mark the VM migrating, and issue `VM_Migrate`. -/
def MigrateVM (env : Env) (st : SchedState) (vm : Nat) (target_machine : Nat) :
    SchedState × List DownCall :=
  let vmInfo := env.vmInfo vm
  let vmTotalDemand := vmAggregateDemand env vm
  let mwt := vmInfo.active_tasks.foldl
    (fun f t_id => Function.update f t_id (some target_machine)) st.machine_with_task
  let m1 := Function.update st.mips_util_map vmInfo.machine_id
    (st.mips_util_map vmInfo.machine_id - vmTotalDemand)
  let m2 := Function.update m1 target_machine (m1 target_machine + vmTotalDemand)
  ({ st with machine_with_task := mwt, mips_util_map := m2,
             migrating_vms := insert vm st.migrating_vms },
   [DownCall.vmMigrate vm target_machine])

/-- The condition of the `assert` guarding `VM_Migrate` in
`Scheduler::MigrateVM`: the destination machine is in S0. -/
abbrev MigrateAssertHolds (env : Env) (target_machine : Nat) : Prop :=
  (env.machineInfo target_machine).s_state = MachineState.S0

/-- 32-bit unsigned subtraction, for the C++ expression
`machine_info.memory_size - machine_info.memory_used` on `unsigned`. -/
def usub32 (a b : Nat) : Nat :=
  (a % 4294967296 + (4294967296 - b % 4294967296)) % 4294967296

/-- The inner VM-scan condition of `Scheduler::NewTask`: the VM is hosted on
this machine with the required VM type and CPU, is ready, and the machine
passes the GPU and free-memory checks. A candidate failing any check is
skipped (`continue`), so the scan is a first-match search over the full
conjunction. -/
def taskFitsVM (env : Env) (migrating : Finset Nat) (machine_id : Nat)
    (vm_type : VMType) (cpu_type : CPUType) (memory : Nat) (gpu_capable : Bool)
    (vm : Nat) : Bool :=
  let vm_info := env.vmInfo vm
  let machine_info := env.machineInfo machine_id
  decide (vm_info.machine_id = machine_id) &&
  decide (vm_info.vm_type = vm_type) &&
  decide (vm_info.cpu = cpu_type) &&
  IsVMReady env migrating vm &&
  (!gpu_capable || machine_info.gpus) &&
  decide (memory ≤ usub32 machine_info.memory_size machine_info.memory_used)

/-- Priority derivation at the top of `Scheduler::NewTask`:
SLA0 → HIGH, SLA1 → MID, otherwise LOW. -/
def NewTaskPriority (sla : SLAType) : Priority :=
  match sla with
  | .SLA0 => .HIGH_PRIORITY
  | .SLA1 => .MID_PRIORITY
  | _ => .LOW_PRIORITY

/-- The machine loop of `Scheduler::NewTask` over the utilisation-sorted
list. Per machine: if the combined utilisation with the task stays below 1,
a machine not in S0 is asked to wake (`Machine_SetState(m, S0)`) and
skipped; otherwise the first fitting existing VM receives the task (load
committed, task mapped), else, when the machine itself is compatible, a VM
is created and a pending attachment recorded. The boolean is `placed`. -/
def newTaskLoop (env : Env) (st : SchedState) (task_id : Nat) (vm_type : VMType)
    (cpu_type : CPUType) (memory : Nat) (gpu_capable : Bool) (priority : Priority)
    (freshVm : Nat) : List Nat → SchedState × List DownCall × Bool
  | [] => (st, [], false)
  | machine_id :: rest =>
    let machineCapacity : ℚ := (CalculateMachineMIPS env machine_id : ℚ)
    let currentLoad := st.mips_util_map machine_id
    let taskLoad := CalculateTaskCPUUtilization env task_id
    if (currentLoad + taskLoad) / machineCapacity < 1 then
      let machine_info := env.machineInfo machine_id
      if machine_info.s_state ≠ .S0 then
        let r := newTaskLoop env st task_id vm_type cpu_type memory gpu_capable
          priority freshVm rest
        (r.1, DownCall.setState machine_id .S0 :: r.2.1, r.2.2)
      else
        match st.vms.find?
            (taskFitsVM env st.migrating_vms machine_id vm_type cpu_type memory
              gpu_capable) with
        | some vm =>
          let demand := CalculateTaskCPUUtilization env task_id
          ({ st with
              mips_util_map := Function.update st.mips_util_map machine_id
                (st.mips_util_map machine_id + demand),
              machine_with_task := Function.update st.machine_with_task task_id
                (some machine_id) },
           [DownCall.vmAddTask vm task_id priority], true)
        | none =>
          if decide (machine_info.cpu = cpu_type) &&
              (!gpu_capable || machine_info.gpus) &&
              decide (memory ≤ usub32 machine_info.memory_size
                machine_info.memory_used) then
            let pa : PendingAttachment :=
              { vm := freshVm, machine_id := machine_id, task_id := task_id,
                priority := priority,
                demand := CalculateTaskCPUUtilization env task_id }
            ({ st with pendingAttachments := st.pendingAttachments ++ [pa] },
             [DownCall.vmCreate vm_type cpu_type freshVm], true)
          else
            newTaskLoop env st task_id vm_type cpu_type memory gpu_capable
              priority freshVm rest
    else
      newTaskLoop env st task_id vm_type cpu_type memory gpu_capable priority
        freshVm rest

/-- `Scheduler::NewTask`: read the task parameters, derive the priority from
the SLA, and walk the utilisation-ascending machine list. `freshVm` is the
id `VM_Create` would return. -/
def NewTask (env : Env) (st : SchedState) (_now : Int) (task_id : Nat)
    (freshVm : Nat) : SchedState × List DownCall × Bool :=
  let task := env.taskInfo task_id
  let priority := NewTaskPriority task.required_sla
  let sorted := SortMachinesByUtilization env st
  newTaskLoop env st task_id task.required_vm task.required_cpu
    task.required_memory task.gpu_capable priority freshVm sorted

/-- The destination scan of `Scheduler::PeriodicCheck`: first machine of the
sorted list, other than the overloaded one, with the VM's CPU type and
utilisation below `utilization - 0.1`. -/
def pcFindTarget (env : Env) (load : Nat → ℚ) (machine_id : Nat)
    (vmCpu : CPUType) (utilization : ℚ) : List Nat → Option Nat
  | [] => none
  | target :: rest =>
    if target = machine_id then
      pcFindTarget env load machine_id vmCpu utilization rest
    else if (env.machineInfo target).cpu ≠ vmCpu then
      pcFindTarget env load machine_id vmCpu utilization rest
    else
      let targetMIPS : ℚ := (CalculateMachineMIPS env target : ℚ)
      let targetLoad := load target
      if targetLoad / targetMIPS < utilization - 1/10 then some target
      else pcFindTarget env load machine_id vmCpu utilization rest

/-- The VM loop of `Scheduler::PeriodicCheck` for one overloaded machine:
each non-migrating VM hosted on it is migrated to the first suitable target
(the `break` leaves only the target scan, so the VM loop continues). -/
def pcVmLoop (env : Env) (machine_id : Nat) (utilization : ℚ) :
    SchedState → List Nat → SchedState × List DownCall
  | st, [] => (st, [])
  | st, vm :: rest =>
    let vmInfo := env.vmInfo vm
    if vmInfo.machine_id = machine_id ∧ vm ∉ st.migrating_vms then
      let sorted := SortMachinesByUtilization env st
      match pcFindTarget env st.mips_util_map machine_id vmInfo.cpu utilization
          sorted with
      | some target =>
        let r := MigrateVM env st vm target
        let r2 := pcVmLoop env machine_id utilization r.1 rest
        (r2.1, r.2 ++ r2.2)
      | none => pcVmLoop env machine_id utilization st rest
    else pcVmLoop env machine_id utilization st rest

/-- The machine loop of `Scheduler::PeriodicCheck`: per machine, migrate VMs
away if utilisation exceeds 0.9, then request S5 when the load read at the
top of the iteration is ≤ 0 and the machine is not already in S5. -/
def pcMachineLoop (env : Env) : SchedState → List Nat → SchedState × List DownCall
  | st, [] => (st, [])
  | st, machine_id :: rest =>
    let machineMIPS : ℚ := (CalculateMachineMIPS env machine_id : ℚ)
    let currentLoad := st.mips_util_map machine_id
    let utilization := currentLoad / machineMIPS
    let r1 :=
      if utilization > 9/10 then pcVmLoop env machine_id utilization st st.vms
      else (st, [])
    let d2 : List DownCall :=
      if currentLoad ≤ 0 ∧ (env.machineInfo machine_id).s_state ≠ .S5 then
        [DownCall.setState machine_id .S5]
      else []
    let r3 := pcMachineLoop env r1.1 rest
    (r3.1, r1.2 ++ d2 ++ r3.2)

/-- `Scheduler::PeriodicCheck`: iterate the tracked machines. -/
def PeriodicCheck (env : Env) (st : SchedState) (_now : Int) :
    SchedState × List DownCall :=
  pcMachineLoop env st st.machines

/-- `Scheduler::TaskComplete`: look up the task's machine (`operator[]`
default-inserts id 0 for an absent task), subtract its recomputed demand,
erase the map entry, clamp the load at zero, and request S5 for the machine
when its load is now zero and it is not already off. -/
def TaskComplete (env : Env) (st : SchedState) (_now : Int) (task_id : Nat) :
    SchedState × List DownCall :=
  let machine_id := (st.machine_with_task task_id).getD 0
  let demand := CalculateTaskCPUUtilization env task_id
  let m1 := Function.update st.mips_util_map machine_id
    (st.mips_util_map machine_id - demand)
  let mwt := fun t => if t = task_id then none else st.machine_with_task t
  let m2 := if m1 machine_id < 0 then Function.update m1 machine_id 0 else m1
  let dcs : List DownCall :=
    if m2 machine_id = 0 ∧ (env.machineInfo machine_id).s_state ≠ .S5 then
      [DownCall.setState machine_id .S5]
    else []
  ({ st with mips_util_map := m2, machine_with_task := mwt }, dcs)

/-- The destination scan of `Scheduler::SLAWarning`: first machine of the
sorted list, other than the overloaded one, with the VM's CPU type and a
smaller max(cpu, memory) utilisation. -/
def slaFindTarget (env : Env) (load : Nat → ℚ) (overloaded : Nat)
    (vmCpu : CPUType) : List Nat → Option Nat
  | [] => none
  | target :: rest =>
    if target = overloaded then slaFindTarget env load overloaded vmCpu rest
    else if (env.machineInfo target).cpu ≠ vmCpu then
      slaFindTarget env load overloaded vmCpu rest
    else
      let targetUtil := max (CalculateCPUUtilization env load target)
        (CalculateMemoryUtilization env target)
      let overloadedUtil := max (CalculateCPUUtilization env load overloaded)
        (CalculateMemoryUtilization env overloaded)
      if targetUtil < overloadedUtil then some target
      else slaFindTarget env load overloaded vmCpu rest

/-- The VM loop of `Scheduler::SLAWarning`: the first non-migrating,
non-empty VM hosted on the overloaded machine for which a target exists is
migrated, and the handler returns (one migration per warning). -/
def slaVmLoop (env : Env) (st : SchedState) (sorted : List Nat)
    (overloaded : Nat) : List Nat → SchedState × List DownCall
  | [] => (st, [])
  | vm :: rest =>
    let vmInfo := env.vmInfo vm
    if vmInfo.machine_id = overloaded ∧ vmInfo.active_tasks ≠ [] ∧
        vm ∉ st.migrating_vms then
      match slaFindTarget env st.mips_util_map overloaded vmInfo.cpu sorted with
      | some target => MigrateVM env st vm target
      | none => slaVmLoop env st sorted overloaded rest
    else slaVmLoop env st sorted overloaded rest

/-- `Scheduler::SLAWarning`: the most-utilised machine (the back of the
utilisation-ascending sort) is treated as overloaded; the warned task id is
only logged. -/
def SLAWarning (env : Env) (st : SchedState) (_time : Int) (_task_id : Nat) :
    SchedState × List DownCall :=
  let sorted := SortMachinesByUtilization env st
  match sorted.getLast? with
  | none => (st, [])
  | some overloaded => slaVmLoop env st sorted overloaded st.vms

/-- A state with its pending-attachment table replaced (used to express
that a computation never consults the table). -/
def withPA (st : SchedState) (p : List PendingAttachment) : SchedState :=
  { st with pendingAttachments := p }

/-! Concrete fixtures: a small X86 machine class and task shapes, used to
instantiate the theorems on explicit inputs. -/

/-- An X86 machine with 1000 MiB memory, GPUs, MIPS ratings
[100, 80, 60, 40] at P0. -/
def xMachine (s : MachineState) (used : Nat) : MachineInfo :=
  { cpu := .X86, memory_size := 1000, memory_used := used, gpus := true,
    performance := [100, 80, 60, 40], s_state := s, p_state := .P0 }

/-- An X86 LINUX task requiring 10 MiB, SLA0, no GPU. -/
def xTask (instr : Nat) (arrival tc : Int) : TaskInfo :=
  { total_instructions := instr, arrival := arrival, target_completion := tc,
    gpu_capable := false, required_cpu := .X86, required_memory := 10,
    required_sla := .SLA0, required_vm := .LINUX }

/-- A VM record for ids the fixtures leave unused. -/
def unusedVM : VMInfo :=
  { active_tasks := [], cpu := .X86, machine_id := 1000, vm_type := .LINUX }

/-- Fixture for C1: a single machine, powered off (S5); the arriving task
has MIPS demand 1 against capacity 100. -/
def envC1 : Env :=
  { numMachines := 1,
    machineInfo := fun _ => xMachine .S5 0,
    vmInfo := fun _ => unusedVM,
    taskInfo := fun _ => xTask 1000000 0 1000000 }

/-- Fixture for C1: the scheduler tracks machine 0 and no VMs. -/
def stC1 : SchedState :=
  { machines := [0], vms := [], mips_util_map := fun _ => 0,
    machine_with_task := fun _ => none, migrating_vms := ∅,
    pendingAttachments := [] }

/-- Fixture for C2: VM 7 on machine 0 runs task 4 (demand 5). -/
def envC2 : Env :=
  { numMachines := 2,
    machineInfo := fun _ => xMachine .S0 0,
    vmInfo := fun v =>
      if v = 7 then
        { active_tasks := [4], cpu := .X86, machine_id := 0, vm_type := .LINUX }
      else unusedVM,
    taskInfo := fun _ => xTask 5000000 0 1000000 }

/-- Fixture for C2: machine 0 carries the committed demand 5 of task 4. -/
def stC2 : SchedState :=
  { machines := [0, 1], vms := [7],
    mips_util_map := fun m => if m = 0 then 5 else 0,
    machine_with_task := fun t => if t = 4 then some 0 else none,
    migrating_vms := ∅, pendingAttachments := [] }

/-- Fixture for C3: task 0 has a 2 s budget for 4·10⁶ instructions
(demand 2); task 1 has target_completion = arrival (floored denominator). -/
def envC3 : Env :=
  { numMachines := 1,
    machineInfo := fun _ => xMachine .S0 0,
    vmInfo := fun _ => unusedVM,
    taskInfo := fun t => if t = 0 then xTask 4000000 0 2000000 else xTask 3 10 10 }

/-- Fixture for C4: VM 7 on machine 0 runs task 4 (demand 5). -/
def envC4 : Env :=
  { numMachines := 2,
    machineInfo := fun _ => xMachine .S0 0,
    vmInfo := fun v =>
      if v = 7 then
        { active_tasks := [4], cpu := .X86, machine_id := 0, vm_type := .LINUX }
      else unusedVM,
    taskInfo := fun _ => xTask 5000000 0 1000000 }

/-- Fixture for C4 (witness): machine 0's committed load covers the demand. -/
def stC4 : SchedState :=
  { machines := [0, 1], vms := [7],
    mips_util_map := fun m => if m = 0 then 5 else 0,
    machine_with_task := fun t => if t = 4 then some 0 else none,
    migrating_vms := ∅, pendingAttachments := [] }

/-- Fixture for C4 (counterexample): committed load is zero everywhere,
smaller than the demand the migration transfers. -/
def stC4x : SchedState :=
  { machines := [0, 1], vms := [7], mips_util_map := fun _ => 0,
    machine_with_task := fun _ => none, migrating_vms := ∅,
    pendingAttachments := [] }

/-- Fixture for C5: machine 0 is awake and VM 7 on it fits the task. -/
def envC5 : Env :=
  { numMachines := 1,
    machineInfo := fun _ => xMachine .S0 0,
    vmInfo := fun v =>
      if v = 7 then
        { active_tasks := [], cpu := .X86, machine_id := 0, vm_type := .LINUX }
      else unusedVM,
    taskInfo := fun _ => xTask 1000000 0 1000000 }

/-- Fixture for C5: the scheduler tracks machine 0 and VM 7. -/
def stC5 : SchedState :=
  { machines := [0], vms := [7], mips_util_map := fun _ => 0,
    machine_with_task := fun _ => none, migrating_vms := ∅,
    pendingAttachments := [] }

/-- Fixture for C6: the SLA-warned task 3 (demand 5) runs in VM 8 on the
lightly loaded machine 0, while machine 1 hosts VM 7 with task 4
(demand 95) and is the most utilised machine. -/
def envC6 : Env :=
  { numMachines := 2,
    machineInfo := fun _ => xMachine .S0 0,
    vmInfo := fun v =>
      if v = 7 then
        { active_tasks := [4], cpu := .X86, machine_id := 1, vm_type := .LINUX }
      else if v = 8 then
        { active_tasks := [3], cpu := .X86, machine_id := 0, vm_type := .LINUX }
      else unusedVM,
    taskInfo := fun t =>
      if t = 4 then xTask 95000000 0 1000000 else xTask 5000000 0 1000000 }

/-- Fixture for C6: committed loads 5 on machine 0, 95 on machine 1; the
task → machine map places task 3 on machine 0. -/
def stC6 : SchedState :=
  { machines := [0, 1], vms := [7, 8],
    mips_util_map := fun m => if m = 1 then 95 else if m = 0 then 5 else 0,
    machine_with_task := fun t =>
      if t = 3 then some 0 else if t = 4 then some 1 else none,
    migrating_vms := ∅, pendingAttachments := [] }

/-- Fixture for C7: machine 0 (S0) is overloaded at utilisation 0.95 by
VM 7 running task 4 (demand 95); machine 1 is powered off (S5) with zero
load and the same CPU type. -/
def envC7 : Env :=
  { numMachines := 2,
    machineInfo := fun m => if m = 1 then xMachine .S5 0 else xMachine .S0 0,
    vmInfo := fun v =>
      if v = 7 then
        { active_tasks := [4], cpu := .X86, machine_id := 0, vm_type := .LINUX }
      else unusedVM,
    taskInfo := fun _ => xTask 95000000 0 1000000 }

/-- Fixture for C7: machine 0 carries committed load 95. -/
def stC7 : SchedState :=
  { machines := [0, 1], vms := [7],
    mips_util_map := fun m => if m = 0 then 95 else 0,
    machine_with_task := fun t => if t = 4 then some 0 else none,
    migrating_vms := ∅, pendingAttachments := [] }

/-- Fixture for C8: machine 0 is awake (S0) with zero committed load. -/
def envC8 : Env :=
  { numMachines := 1,
    machineInfo := fun _ => xMachine .S0 0,
    vmInfo := fun _ => unusedVM,
    taskInfo := fun _ => xTask 1000000 0 1000000 }

/-- Fixture for C8: the pending-attachment table names machine 0. -/
def stC8 : SchedState :=
  { machines := [0], vms := [], mips_util_map := fun _ => 0,
    machine_with_task := fun _ => none, migrating_vms := ∅,
    pendingAttachments :=
      [{ vm := 9, machine_id := 0, task_id := 5, priority := .HIGH_PRIORITY,
         demand := 1 }] }

/-- Fixture for C10: machine 0 is already powered off (S5); task 6 has
demand 5 and no entry in the task → machine map. -/
def envC10 : Env :=
  { numMachines := 1,
    machineInfo := fun _ => xMachine .S5 0,
    vmInfo := fun _ => unusedVM,
    taskInfo := fun _ => xTask 5000000 0 1000000 }

/-- Fixture for C10: empty accounting state. -/
def stC10 : SchedState :=
  { machines := [0], vms := [], mips_util_map := fun _ => 0,
    machine_with_task := fun _ => none, migrating_vms := ∅,
    pendingAttachments := [] }

/-! ## Helper lemmas -/

/-- Membership is preserved by the sort's insertion step. -/
theorem mem_insertAsc (env : Env) (load : Nat → ℚ) (x a : Nat) :
    ∀ l : List Nat, a ∈ insertAsc env load x l ↔ a = x ∨ a ∈ l := by
  intro l
  induction l with
  | nil => simp [insertAsc]
  | cons y ys ih =>
    simp only [insertAsc]
    by_cases h : machineUtilKey env load x < machineUtilKey env load y
    · simp [h, List.mem_cons]
    · simp [h, List.mem_cons, ih]
      tauto

/-- The utilisation sort is a permutation in the membership sense. -/
theorem mem_sortMachinesAux (env : Env) (load : Nat → ℚ) (a : Nat) :
    ∀ l : List Nat, a ∈ sortMachinesAux env load l ↔ a ∈ l := by
  intro l
  induction l with
  | nil => simp [sortMachinesAux]
  | cons x xs ih =>
    simp only [sortMachinesAux]
    rw [mem_insertAsc]
    simp [ih]

/-- Adding `c` at a point of a function adds `c` to its sum over any finite
set containing the point. -/
theorem sum_update_add (S : Finset ℕ) (f : ℕ → ℚ) (i : ℕ) (hi : i ∈ S) (c : ℚ) :
    S.sum (Function.update f i (f i + c)) = S.sum f + c := by
  rw [Finset.sum_update_of_mem hi, Finset.sdiff_singleton_eq_erase]
  rw [← Finset.add_sum_erase S f hi]
  ring

/-- The task-map fold of `MigrateVM` sets exactly the listed tasks. -/
theorem foldl_update_mwt (target : Nat) :
    ∀ (l : List Nat) (f : Nat → Option Nat) (t : Nat),
      (l.foldl (fun g u => Function.update g u (some target)) f) t =
        if t ∈ l then some target else f t := by
  intro l
  induction l with
  | nil => simp
  | cons x xs ih =>
    intro f t
    simp only [List.foldl_cons, ih]
    by_cases hx : t ∈ xs
    · simp [hx]
    · by_cases htx : t = x
      · subst htx
        simp [hx, Function.update_same]
      · simp [hx, htx, Function.update_noteq htx]

/-- A task's computed MIPS demand is never negative. -/
theorem taskDemand_nonneg (env : Env) (task_id : Nat) :
    0 ≤ CalculateTaskCPUUtilization env task_id := by
  unfold CalculateTaskCPUUtilization
  set d : ℚ := (((env.taskInfo task_id).target_completion -
    (env.taskInfo task_id).arrival : Int) : ℚ) with hd
  by_cases h : d ≤ 0
  · simp only [h, if_true]
    positivity
  · simp only [h, if_false]
    have hpos : 0 < d := lt_of_not_le h
    positivity

/-- A VM's aggregate demand is never negative. -/
theorem vmAggregateDemand_nonneg (env : Env) (vm : Nat) :
    0 ≤ vmAggregateDemand env vm := by
  unfold vmAggregateDemand
  apply List.sum_nonneg
  intro x hx
  simp only [List.mem_map] at hx
  obtain ⟨t, _, rfl⟩ := hx
  exact taskDemand_nonneg env t

/-! ## The claims -/

/-- Claim C9 (confirmed): `MigrationComplete(time, v)` only removes `v`
from the set of migrating VMs; the per-machine committed-MIPS map, the
task → machine map, the pending-attachment table (and the machine and VM
lists) are unchanged. -/
theorem migrationComplete_only_clears_flag (st : SchedState) (vm : Nat) :
    (MigrationComplete st vm).mips_util_map = st.mips_util_map ∧
    (MigrationComplete st vm).machine_with_task = st.machine_with_task ∧
    (MigrationComplete st vm).pendingAttachments = st.pendingAttachments ∧
    (MigrationComplete st vm).machines = st.machines ∧
    (MigrationComplete st vm).vms = st.vms ∧
    (MigrationComplete st vm).migrating_vms = st.migrating_vms.erase vm :=
  ⟨rfl, rfl, rfl, rfl, rfl, rfl⟩

/-- Claim C2 (confirmed): `MigrateVM(v, d)` marks `v` migrating, re-points
every active task of `v` to `d`, and moves `v`'s aggregate demand from the
source to `d`, so the committed-MIPS sum over any machine set containing
source and destination is unchanged — and still unchanged after the
corresponding `MigrationComplete`. -/
theorem migrateVM_marks_and_transfers (env : Env) (st : SchedState)
    (vm target : Nat) (S : Finset ℕ)
    (hs : (env.vmInfo vm).machine_id ∈ S) (ht : target ∈ S) :
    vm ∈ (MigrateVM env st vm target).1.migrating_vms ∧
    (∀ t ∈ (env.vmInfo vm).active_tasks,
      (MigrateVM env st vm target).1.machine_with_task t = some target) ∧
    S.sum (MigrateVM env st vm target).1.mips_util_map =
      S.sum st.mips_util_map ∧
    S.sum (MigrationComplete (MigrateVM env st vm target).1 vm).mips_util_map =
      S.sum st.mips_util_map := by
  have hmap : (MigrateVM env st vm target).1.mips_util_map =
      (let d := vmAggregateDemand env vm
       let m1 := Function.update st.mips_util_map (env.vmInfo vm).machine_id
         (st.mips_util_map (env.vmInfo vm).machine_id - d)
       Function.update m1 target (m1 target + d)) := rfl
  have hsum : S.sum (MigrateVM env st vm target).1.mips_util_map =
      S.sum st.mips_util_map := by
    rw [hmap]
    set d := vmAggregateDemand env vm with hdd
    set src := (env.vmInfo vm).machine_id with hsrc
    set m1 := Function.update st.mips_util_map src
      (st.mips_util_map src - d) with hm1
    have h1 : S.sum m1 = S.sum st.mips_util_map - d := by
      have : m1 = Function.update st.mips_util_map src
          (st.mips_util_map src + (-d)) := by
        rw [hm1, sub_eq_add_neg]
      rw [this, sum_update_add S st.mips_util_map src hs (-d)]
      ring
    calc S.sum (Function.update m1 target (m1 target + d))
        = S.sum m1 + d := sum_update_add S m1 target ht d
      _ = S.sum st.mips_util_map := by rw [h1]; ring
  refine ⟨?_, ?_, hsum, ?_⟩
  · exact Finset.mem_insert_self vm st.migrating_vms
  · intro t htm
    have : (MigrateVM env st vm target).1.machine_with_task t =
        ((env.vmInfo vm).active_tasks.foldl
          (fun g u => Function.update g u (some target))
          st.machine_with_task) t := rfl
    rw [this, foldl_update_mwt]
    simp [htm]
  · have : (MigrationComplete (MigrateVM env st vm target).1 vm).mips_util_map =
        (MigrateVM env st vm target).1.mips_util_map := rfl
    rw [this]
    exact hsum

/-- Witness for C2 at the concrete fixture: migrating VM 7 (task 4,
demand 5) from machine 0 to machine 1 preserves the committed-MIPS sum over
both machines, re-points task 4, marks VM 7, and completion keeps the sum. -/
theorem migrateVM_marks_and_transfers_witness :
    7 ∈ (MigrateVM envC2 stC2 7 1).1.migrating_vms ∧
    (MigrateVM envC2 stC2 7 1).1.machine_with_task 4 = some 1 ∧
    ({0, 1} : Finset ℕ).sum (MigrateVM envC2 stC2 7 1).1.mips_util_map =
      ({0, 1} : Finset ℕ).sum stC2.mips_util_map ∧
    ({0, 1} : Finset ℕ).sum
        (MigrationComplete (MigrateVM envC2 stC2 7 1).1 7).mips_util_map =
      ({0, 1} : Finset ℕ).sum stC2.mips_util_map := by
  have h := migrateVM_marks_and_transfers envC2 stC2 7 1 {0, 1}
    (by simp [envC2]) (by simp)
  exact ⟨h.1, h.2.1 4 (by simp [envC2]), h.2.2.1, h.2.2.2⟩

/-- Claim C3 (confirmed): the computed MIPS demand is
total_instructions × 10⁻⁶ / ((target_completion − arrival) in seconds) when
the budget is positive, and with target_completion ≤ arrival the 1 µs floor
makes the demand equal total_instructions × 10⁻⁶ / 10⁻⁶ s =
total_instructions (finite, not infinite). -/
theorem taskDemand_formula_and_floor (env : Env) (task_id : Nat) :
    ((env.taskInfo task_id).arrival < (env.taskInfo task_id).target_completion →
      CalculateTaskCPUUtilization env task_id =
        (((env.taskInfo task_id).total_instructions : ℚ) / 1000000) /
          ((((env.taskInfo task_id).target_completion -
            (env.taskInfo task_id).arrival : Int) : ℚ) / 1000000)) ∧
    ((env.taskInfo task_id).target_completion ≤ (env.taskInfo task_id).arrival →
      CalculateTaskCPUUtilization env task_id =
        ((env.taskInfo task_id).total_instructions : ℚ)) := by
  constructor
  · intro h
    unfold CalculateTaskCPUUtilization
    have hpos : (0 : ℚ) < (((env.taskInfo task_id).target_completion -
        (env.taskInfo task_id).arrival : Int) : ℚ) := by
      have : (0 : Int) < (env.taskInfo task_id).target_completion -
          (env.taskInfo task_id).arrival := by omega
      exact_mod_cast this
    simp only [not_le.mpr hpos, if_false]
  · intro h
    unfold CalculateTaskCPUUtilization
    have hnp : (((env.taskInfo task_id).target_completion -
        (env.taskInfo task_id).arrival : Int) : ℚ) ≤ 0 := by
      have : (env.taskInfo task_id).target_completion -
          (env.taskInfo task_id).arrival ≤ (0 : Int) := by omega
      exact_mod_cast this
    simp only [hnp, if_true]
    field_simp

/-- Witness for C3 at the concrete fixture: task 0 (4·10⁶ instructions over
2 s) follows the formula; task 1 (target_completion = arrival) gets the
floored denominator, yielding its instruction count (3) as demand. -/
theorem taskDemand_formula_and_floor_witness :
    (envC3.taskInfo 0).arrival < (envC3.taskInfo 0).target_completion ∧
    CalculateTaskCPUUtilization envC3 0 =
      (((envC3.taskInfo 0).total_instructions : ℚ) / 1000000) /
        ((((envC3.taskInfo 0).target_completion -
          (envC3.taskInfo 0).arrival : Int) : ℚ) / 1000000) ∧
    (envC3.taskInfo 1).target_completion ≤ (envC3.taskInfo 1).arrival ∧
    CalculateTaskCPUUtilization envC3 1 =
      ((envC3.taskInfo 1).total_instructions : ℚ) := by
  refine ⟨by norm_num [envC3, xTask], ?_, by norm_num [envC3, xTask], ?_⟩
  · exact (taskDemand_formula_and_floor envC3 0).1 (by norm_num [envC3, xTask])
  · exact (taskDemand_formula_and_floor envC3 1).2 (by norm_num [envC3, xTask])

/-- Subtract-then-clamp (the `TaskComplete` accounting) keeps a nonnegative
map nonnegative. -/
theorem nonneg_after_clamp (f : ℕ → ℚ) (mid : ℕ) (d : ℚ)
    (h : ∀ m, 0 ≤ f m) :
    ∀ m, 0 ≤ (if Function.update f mid (f mid - d) mid < 0 then
        Function.update (Function.update f mid (f mid - d)) mid 0
      else Function.update f mid (f mid - d)) m := by
  intro m
  by_cases hneg : Function.update f mid (f mid - d) mid < 0
  · rw [if_pos hneg]
    by_cases hm : m = mid
    · subst hm
      rw [Function.update_same]
    · rw [Function.update_noteq hm, Function.update_noteq hm]
      exact h m
  · rw [if_neg hneg]
    by_cases hm : m = mid
    · subst hm
      exact le_of_not_lt hneg
    · rw [Function.update_noteq hm]
      exact h m

/-- Subtract-at-source / add-at-target (the `MigrateVM` accounting) keeps a
nonnegative map nonnegative when the source holds at least the transferred
amount. -/
theorem nonneg_after_transfer (f : ℕ → ℚ) (src tgt : ℕ) (d : ℚ)
    (h : ∀ m, 0 ≤ f m) (hd : 0 ≤ d) (h2 : d ≤ f src) :
    ∀ m, 0 ≤ Function.update (Function.update f src (f src - d)) tgt
      (Function.update f src (f src - d) tgt + d) m := by
  have hm1 : ∀ k, 0 ≤ Function.update f src (f src - d) k := by
    intro k
    by_cases hk : k = src
    · subst hk
      rw [Function.update_same]
      linarith
    · rw [Function.update_noteq hk]
      exact h k
  intro m
  by_cases hm : m = tgt
  · rw [hm, Function.update_same]
    exact add_nonneg (hm1 tgt) hd
  · rw [Function.update_noteq hm]
    exact hm1 m

/-- Claim C4 (corrected): `TaskComplete` releases with a clamp at zero, so
it leaves every committed-MIPS value nonnegative; `MigrateVM`, by contrast,
subtracts the aggregate demand from the source without clamping, so it
preserves nonnegativity only when the source's recorded committed MIPS is
at least the transferred demand (see the counterexample for the unclamped
case). -/
theorem committed_mips_release_clamped (env : Env) (st : SchedState)
    (now : Int) (task vm target : Nat)
    (h : ∀ m, 0 ≤ st.mips_util_map m)
    (h2 : vmAggregateDemand env vm ≤
      st.mips_util_map (env.vmInfo vm).machine_id) :
    (∀ m, 0 ≤ (TaskComplete env st now task).1.mips_util_map m) ∧
    (∀ m, 0 ≤ (MigrateVM env st vm target).1.mips_util_map m) := by
  constructor
  · exact nonneg_after_clamp st.mips_util_map
      ((st.machine_with_task task).getD 0)
      (CalculateTaskCPUUtilization env task) h
  · exact nonneg_after_transfer st.mips_util_map (env.vmInfo vm).machine_id
      target (vmAggregateDemand env vm) h (vmAggregateDemand_nonneg env vm) h2

/-- Witness for C4 at the concrete fixture: with machine 0 holding exactly
the demand of VM 7's task, both `TaskComplete` and `MigrateVM` leave the
loads of machines 0 and 1 nonnegative. -/
theorem committed_mips_release_clamped_witness :
    (0 ≤ (TaskComplete envC4 stC4 0 4).1.mips_util_map 0 ∧
      0 ≤ (TaskComplete envC4 stC4 0 4).1.mips_util_map 1) ∧
    (0 ≤ (MigrateVM envC4 stC4 7 1).1.mips_util_map 0 ∧
      0 ≤ (MigrateVM envC4 stC4 7 1).1.mips_util_map 1) := by
  have h := committed_mips_release_clamped envC4 stC4 0 4 7 1
    (by
      intro m
      simp only [stC4]
      by_cases hm : m = 0 <;> simp [hm])
    (by norm_num [vmAggregateDemand, CalculateTaskCPUUtilization, envC4, stC4,
      xTask])
  exact ⟨⟨h.1 0, h.1 1⟩, ⟨h.2 0, h.2 1⟩⟩

/-- Counterexample for C4: with zero committed load everywhere, migrating
VM 7 (aggregate demand 5) off machine 0 drives machine 0's committed MIPS
to −5 — `MigrateVM` transfers without clamping, so the claim that every
releasing/transferring operation leaves committed MIPS ≥ 0 fails. -/
theorem migrateVM_can_drive_load_negative :
    stC4x.mips_util_map 0 = 0 ∧ stC4x.mips_util_map 1 = 0 ∧
    (MigrateVM envC4 stC4x 7 1).1.mips_util_map 0 = -5 := by
  norm_num [MigrateVM, vmAggregateDemand, CalculateTaskCPUUtilization,
    envC4, stC4x, xTask, Function.update]

/-- Claim C10 (corrected): when `TaskComplete` runs for a task with no
entry in the task → machine map, the `operator[]` lookup defaults to
machine id 0: the task's demand is subtracted from machine 0's committed
MIPS and clamped at zero, other machines are untouched, no error is
signalled — but the S5 power-off of machine 0 is requested only when the
resulting load is zero AND machine 0 is not already in S5. -/
theorem taskComplete_unmapped_default_zero (env : Env) (st : SchedState)
    (now : Int) (task : Nat) (h : st.machine_with_task task = none) :
    (TaskComplete env st now task).1.mips_util_map 0 =
      max (st.mips_util_map 0 - CalculateTaskCPUUtilization env task) 0 ∧
    (∀ m, m ≠ 0 →
      (TaskComplete env st now task).1.mips_util_map m = st.mips_util_map m) ∧
    (TaskComplete env st now task).1.machine_with_task task = none ∧
    (TaskComplete env st now task).2 =
      (if (TaskComplete env st now task).1.mips_util_map 0 = 0 ∧
          (env.machineInfo 0).s_state ≠ MachineState.S5
       then [DownCall.setState 0 MachineState.S5] else []) := by
  have hmid : (st.machine_with_task task).getD 0 = 0 := by rw [h]; rfl
  refine ⟨?_, ?_, ?_, ?_⟩
  · show (if Function.update st.mips_util_map
          ((st.machine_with_task task).getD 0)
          (st.mips_util_map ((st.machine_with_task task).getD 0) -
            CalculateTaskCPUUtilization env task)
          ((st.machine_with_task task).getD 0) < 0 then
        Function.update (Function.update st.mips_util_map
          ((st.machine_with_task task).getD 0)
          (st.mips_util_map ((st.machine_with_task task).getD 0) -
            CalculateTaskCPUUtilization env task))
          ((st.machine_with_task task).getD 0) 0
      else Function.update st.mips_util_map
        ((st.machine_with_task task).getD 0)
        (st.mips_util_map ((st.machine_with_task task).getD 0) -
          CalculateTaskCPUUtilization env task)) 0 =
      max (st.mips_util_map 0 - CalculateTaskCPUUtilization env task) 0
    rw [hmid]
    set d := CalculateTaskCPUUtilization env task
    by_cases hneg : Function.update st.mips_util_map 0
        (st.mips_util_map 0 - d) 0 < 0
    · rw [if_pos hneg, Function.update_same]
      rw [Function.update_same] at hneg
      exact (max_eq_right (le_of_lt hneg)).symm
    · rw [if_neg hneg, Function.update_same]
      rw [Function.update_same] at hneg
      exact (max_eq_left (le_of_not_lt hneg)).symm
  · intro m hm
    show (if Function.update st.mips_util_map
          ((st.machine_with_task task).getD 0)
          (st.mips_util_map ((st.machine_with_task task).getD 0) -
            CalculateTaskCPUUtilization env task)
          ((st.machine_with_task task).getD 0) < 0 then
        Function.update (Function.update st.mips_util_map
          ((st.machine_with_task task).getD 0)
          (st.mips_util_map ((st.machine_with_task task).getD 0) -
            CalculateTaskCPUUtilization env task))
          ((st.machine_with_task task).getD 0) 0
      else Function.update st.mips_util_map
        ((st.machine_with_task task).getD 0)
        (st.mips_util_map ((st.machine_with_task task).getD 0) -
          CalculateTaskCPUUtilization env task)) m = st.mips_util_map m
    rw [hmid]
    by_cases hneg : Function.update st.mips_util_map 0
        (st.mips_util_map 0 - CalculateTaskCPUUtilization env task) 0 < 0
    · rw [if_pos hneg, Function.update_noteq hm, Function.update_noteq hm]
    · rw [if_neg hneg, Function.update_noteq hm]
  · show (if task = task then none else st.machine_with_task task) = none
    rw [if_pos rfl]
  · show (if (TaskComplete env st now task).1.mips_util_map
          ((st.machine_with_task task).getD 0) = 0 ∧
          (env.machineInfo ((st.machine_with_task task).getD 0)).s_state ≠
            MachineState.S5
        then [DownCall.setState ((st.machine_with_task task).getD 0)
          MachineState.S5] else []) =
      (if (TaskComplete env st now task).1.mips_util_map 0 = 0 ∧
          (env.machineInfo 0).s_state ≠ MachineState.S5
       then [DownCall.setState 0 MachineState.S5] else [])
    rw [hmid]

/-- Witness for C10 at the concrete fixture: completing the unmapped task 6
(demand 5, empty map) yields the clamped machine-0 load and the gated
power-off list. -/
theorem taskComplete_unmapped_default_zero_witness :
    (TaskComplete envC10 stC10 0 6).1.mips_util_map 0 =
      max (stC10.mips_util_map 0 - CalculateTaskCPUUtilization envC10 6) 0 ∧
    (TaskComplete envC10 stC10 0 6).1.machine_with_task 6 = none ∧
    (TaskComplete envC10 stC10 0 6).2 =
      (if (TaskComplete envC10 stC10 0 6).1.mips_util_map 0 = 0 ∧
          (envC10.machineInfo 0).s_state ≠ MachineState.S5
       then [DownCall.setState 0 MachineState.S5] else []) := by
  have h := taskComplete_unmapped_default_zero envC10 stC10 0 6 rfl
  exact ⟨h.1, h.2.2.1, h.2.2.2⟩

/-- Counterexample for C10: at the fixture, task 6 is unmapped and its
completion leaves machine 0's committed MIPS at exactly zero, yet no
power-off is requested, because machine 0 is already in S5 — the claim's
unconditional "a power-off of machine 0 to S5 is requested" fails. -/
theorem taskComplete_unmapped_no_poweroff_when_already_S5 :
    stC10.machine_with_task 6 = none ∧
    (TaskComplete envC10 stC10 0 6).1.mips_util_map 0 = 0 ∧
    (envC10.machineInfo 0).s_state = MachineState.S5 ∧
    (TaskComplete envC10 stC10 0 6).2 = [] := by
  norm_num [TaskComplete, CalculateTaskCPUUtilization, envC10, stC10, xTask,
    xMachine, Function.update]

/-- Every `VM_AddTask` down-call the placement loop issues for the task
carries the priority argument, and every pending attachment it records
either pre-existed or carries the priority argument. -/
theorem newTaskLoop_priority (env : Env) (st : SchedState) (task : Nat)
    (vt : VMType) (ct : CPUType) (mem : Nat) (gpu : Bool) (pr : Priority)
    (fv : Nat) :
    ∀ L : List Nat,
      (∀ vm p, DownCall.vmAddTask vm task p ∈
          (newTaskLoop env st task vt ct mem gpu pr fv L).2.1 → p = pr) ∧
      (∀ pa ∈ (newTaskLoop env st task vt ct mem gpu pr fv L).1.pendingAttachments,
        pa ∈ st.pendingAttachments ∨ pa.priority = pr) := by
  intro L
  induction L with
  | nil =>
    constructor
    · intro vm p hp
      simp [newTaskLoop] at hp
    · intro pa hpa
      exact Or.inl hpa
  | cons m rest ih =>
    constructor
    · intro vm p hp
      simp only [newTaskLoop] at hp
      split at hp
      · split at hp
        · rcases List.mem_cons.mp hp with hcase | hcase
          · cases hcase
          · exact ih.1 vm p hcase
        · split at hp
          · rcases List.mem_singleton.mp hp with hcase
            cases hcase
            rfl
          · split at hp
            · rcases List.mem_singleton.mp hp with hcase
              cases hcase
            · exact ih.1 vm p hp
      · exact ih.1 vm p hp
    · intro pa hpa
      simp only [newTaskLoop] at hpa
      split at hpa
      · split at hpa
        · exact ih.2 pa hpa
        · split at hpa
          · exact Or.inl hpa
          · split at hpa
            · rcases List.mem_append.mp hpa with hcase | hcase
              · exact Or.inl hcase
              · right
                rcases List.mem_singleton.mp hcase with hcase2
                rw [hcase2]
            · exact ih.2 pa hpa
      · exact ih.2 pa hpa

/-- Claim C5 (confirmed): every priority `NewTask` hands to `VM_AddTask`
(and records in a pending attachment) is derived from the task's SLA class
alone, with SLA0 → HIGH, SLA1 → MID, SLA2 → LOW and SLA3 → LOW. -/
theorem newTask_priority_from_sla (env : Env) (st : SchedState) (now : Int)
    (task fv vm : Nat) (p : Priority)
    (h : DownCall.vmAddTask vm task p ∈ (NewTask env st now task fv).2.1) :
    p = NewTaskPriority (env.taskInfo task).required_sla ∧
    (∀ pa ∈ (NewTask env st now task fv).1.pendingAttachments,
      pa ∈ st.pendingAttachments ∨
        pa.priority = NewTaskPriority (env.taskInfo task).required_sla) ∧
    NewTaskPriority .SLA0 = .HIGH_PRIORITY ∧
    NewTaskPriority .SLA1 = .MID_PRIORITY ∧
    NewTaskPriority .SLA2 = .LOW_PRIORITY ∧
    NewTaskPriority .SLA3 = .LOW_PRIORITY := by
  have hl := newTaskLoop_priority env st task (env.taskInfo task).required_vm
    (env.taskInfo task).required_cpu (env.taskInfo task).required_memory
    (env.taskInfo task).gpu_capable
    (NewTaskPriority (env.taskInfo task).required_sla) fv
    (SortMachinesByUtilization env st)
  exact ⟨hl.1 vm p h, hl.2, rfl, rfl, rfl, rfl⟩

/-- Witness for C5 at the concrete fixture: the SLA0 task 0 is added to
VM 7 at HIGH priority, which is the SLA-derived priority. -/
theorem newTask_priority_from_sla_witness :
    DownCall.vmAddTask 7 0 Priority.HIGH_PRIORITY ∈
      (NewTask envC5 stC5 0 0 99).2.1 ∧
    Priority.HIGH_PRIORITY = NewTaskPriority (envC5.taskInfo 0).required_sla := by
  have hdc : (NewTask envC5 stC5 0 0 99).2.1 =
      [DownCall.vmAddTask 7 0 Priority.HIGH_PRIORITY] := by
    norm_num [NewTask, newTaskLoop, SortMachinesByUtilization, sortMachinesAux,
      insertAsc, taskFitsVM, IsVMReady, usub32, NewTaskPriority,
      CalculateTaskCPUUtilization, CalculateMachineMIPS, envC5, stC5, xMachine,
      xTask, List.find?]
    decide
  have hmem : DownCall.vmAddTask 7 0 Priority.HIGH_PRIORITY ∈
      (NewTask envC5 stC5 0 0 99).2.1 := by
    rw [hdc]
    exact List.mem_singleton.mpr rfl
  exact ⟨hmem, (newTask_priority_from_sla envC5 stC5 0 0 99 7
    Priority.HIGH_PRIORITY hmem).1⟩

/-- When every machine of the walked list is out of S0, the placement loop
only issues wake requests — for exactly the machines whose combined
utilisation with the task would stay below 1 — and leaves the state
untouched with `placed = false`. -/
theorem newTaskLoop_allAsleep (env : Env) (st : SchedState) (task : Nat)
    (vt : VMType) (ct : CPUType) (mem : Nat) (gpu : Bool) (pr : Priority)
    (fv : Nat) :
    ∀ L : List Nat, (∀ m ∈ L, (env.machineInfo m).s_state ≠ MachineState.S0) →
      newTaskLoop env st task vt ct mem gpu pr fv L =
        (st,
         (L.filter fun m =>
            decide ((st.mips_util_map m + CalculateTaskCPUUtilization env task) /
              ((CalculateMachineMIPS env m : ℚ)) < 1)).map
           (fun m => DownCall.setState m MachineState.S0),
         false) := by
  intro L
  induction L with
  | nil =>
    intro _
    simp [newTaskLoop]
  | cons m rest ih =>
    intro h
    have hm : (env.machineInfo m).s_state ≠ MachineState.S0 :=
      h m (List.mem_cons_self m rest)
    have hrest := ih (fun k hk => h k (List.mem_cons_of_mem m hk))
    simp only [newTaskLoop]
    by_cases hc : (st.mips_util_map m + CalculateTaskCPUUtilization env task) /
        ((CalculateMachineMIPS env m : ℚ)) < 1
    · rw [if_pos hc, if_pos hm, hrest]
      simp [List.filter_cons, hc]
    · rw [if_neg hc, hrest]
      simp [List.filter_cons, hc]

/-- Claim C1 (corrected): when every tracked machine is out of the active
S-state, `NewTask` requests S0 for exactly the sleeping machines whose
combined utilisation with the task would stay below 1 (in utilisation
order), leaves the scheduler state unchanged — in particular it creates no
VM and records no pending attachment — and the task remains unplaced. -/
theorem newTask_allSleeping_wakes_only (env : Env) (st : SchedState)
    (now : Int) (task fv : Nat)
    (h : ∀ m ∈ st.machines, (env.machineInfo m).s_state ≠ MachineState.S0) :
    NewTask env st now task fv =
      (st,
       ((SortMachinesByUtilization env st).filter fun m =>
          decide ((st.mips_util_map m + CalculateTaskCPUUtilization env task) /
            ((CalculateMachineMIPS env m : ℚ)) < 1)).map
         (fun m => DownCall.setState m MachineState.S0),
       false) := by
  have hs : ∀ m ∈ SortMachinesByUtilization env st,
      (env.machineInfo m).s_state ≠ MachineState.S0 := by
    intro m hm
    exact h m ((mem_sortMachinesAux env st.mips_util_map m st.machines).mp hm)
  exact newTaskLoop_allAsleep env st task (env.taskInfo task).required_vm
    (env.taskInfo task).required_cpu (env.taskInfo task).required_memory
    (env.taskInfo task).gpu_capable
    (NewTaskPriority (env.taskInfo task).required_sla) fv
    (SortMachinesByUtilization env st) hs

/-- Witness for C1 at the concrete fixture: with the only machine in S5,
`NewTask` reduces to the wake-request list. -/
theorem newTask_allSleeping_wakes_only_witness :
    NewTask envC1 stC1 0 0 99 =
      (stC1,
       ((SortMachinesByUtilization envC1 stC1).filter fun m =>
          decide ((stC1.mips_util_map m + CalculateTaskCPUUtilization envC1 0) /
            ((CalculateMachineMIPS envC1 m : ℚ)) < 1)).map
         (fun m => DownCall.setState m MachineState.S0),
       false) := by
  apply newTask_allSleeping_wakes_only envC1 stC1 0 0 99
  intro m hm
  have hm0 : m = 0 := by
    simpa [stC1] using hm
  rw [hm0]
  simp [envC1, xMachine]

/-- Counterexample for C1: at the all-asleep fixture (machine 0 in S5,
task compatible with it), `NewTask` issues only the wake request — no
`VM_Create` and no pending attachment, contradicting the claim that Pass D
creates a VM and records exactly one pending attachment. -/
theorem newTask_allSleeping_no_pending_attachment :
    stC1.machines = [0] ∧
    (envC1.machineInfo 0).s_state = MachineState.S5 ∧
    (NewTask envC1 stC1 0 0 99).2.1 = [DownCall.setState 0 MachineState.S0] ∧
    (NewTask envC1 stC1 0 0 99).1.pendingAttachments = [] ∧
    (NewTask envC1 stC1 0 0 99).2.2 = false := by
  norm_num [NewTask, newTaskLoop, SortMachinesByUtilization, sortMachinesAux,
    insertAsc, CalculateTaskCPUUtilization, CalculateMachineMIPS, envC1, stC1,
    xMachine, xTask, NewTaskPriority]
  decide

/-- Any migration the SLA-warning VM loop issues is of a VM hosted on the
machine selected as overloaded. -/
theorem slaVmLoop_migrate_src (env : Env) (st : SchedState)
    (sorted : List Nat) (overloaded : Nat) :
    ∀ (V : List Nat) (vm d : Nat),
      DownCall.vmMigrate vm d ∈ (slaVmLoop env st sorted overloaded V).2 →
      (env.vmInfo vm).machine_id = overloaded := by
  intro V
  induction V with
  | nil =>
    intro vm d h
    simp [slaVmLoop] at h
  | cons v rest ih =>
    intro vm d h
    simp only [slaVmLoop] at h
    split at h
    · rename_i hcond
      split at h
      · rcases List.mem_singleton.mp h with hcase
        cases hcase
        exact hcond.1
      · exact ih vm d h
    · exact ih vm d h

/-- Claim C6 (corrected): the machine `SLAWarning` treats as overloaded is
the most-utilised machine — the back of the utilisation-ascending sort —
not the machine recorded for the warned task; indeed the handler never
reads the warned task id at all, so its result is the same for every task. -/
theorem slaWarning_overloaded_is_sort_back (env : Env) (st : SchedState)
    (time : Int) (task vm d : Nat)
    (h : DownCall.vmMigrate vm d ∈ (SLAWarning env st time task).2) :
    (∀ t1 t2 : Nat, SLAWarning env st time t1 = SLAWarning env st time t2) ∧
    (SortMachinesByUtilization env st).getLast? =
      some ((env.vmInfo vm).machine_id) := by
  refine ⟨fun t1 t2 => rfl, ?_⟩
  simp only [SLAWarning] at h
  cases hl : (SortMachinesByUtilization env st).getLast? with
  | none =>
    rw [hl] at h
    simp at h
  | some ov =>
    rw [hl] at h
    simp only [] at h
    have hsrc := slaVmLoop_migrate_src env st
      (SortMachinesByUtilization env st) ov st.vms vm d h
    rw [hsrc]

/-- Witness for C6 at the concrete fixture: the migration issued by
`SLAWarning` for task 3 moves VM 7, whose host (machine 1) is the back of
the utilisation sort; and the handler's result ignores the task id. -/
theorem slaWarning_overloaded_is_sort_back_witness :
    (SortMachinesByUtilization envC6 stC6).getLast? =
      some ((envC6.vmInfo 7).machine_id) ∧
    SLAWarning envC6 stC6 0 3 = SLAWarning envC6 stC6 0 999 := by
  have hdc : (SLAWarning envC6 stC6 0 3).2 = [DownCall.vmMigrate 7 0] := by
    norm_num [SLAWarning, slaVmLoop, slaFindTarget, SortMachinesByUtilization,
      sortMachinesAux, insertAsc, machineUtilKey, CalculateCPUUtilization,
      CalculateMemoryUtilization, CalculateMachineMIPS,
      CalculateTaskCPUUtilization, MigrateVM, vmAggregateDemand, envC6, stC6,
      xMachine, xTask]
  have hmem : DownCall.vmMigrate 7 0 ∈ (SLAWarning envC6 stC6 0 3).2 := by
    rw [hdc]
    exact List.mem_singleton.mpr rfl
  have h := slaWarning_overloaded_is_sort_back envC6 stC6 0 3 7 0 hmem
  exact ⟨h.2, h.1 3 999⟩

/-- Counterexample for C6: at the fixture, the warned task 3 resides on
machine 0 according to the task → machine map, yet `SLAWarning` selects
machine 1 (the most utilised) as the overloaded source and migrates VM 7
hosted there — the claim that the overloaded machine is the warned task's
machine fails. -/
theorem slaWarning_ignores_task_machine :
    (SLAWarning envC6 stC6 0 3).2 = [DownCall.vmMigrate 7 0] ∧
    (envC6.vmInfo 7).machine_id = 1 ∧
    stC6.machine_with_task 3 = some 0 := by
  refine ⟨?_, by norm_num [envC6], by norm_num [stC6]⟩
  norm_num [SLAWarning, slaVmLoop, slaFindTarget, SortMachinesByUtilization,
    sortMachinesAux, insertAsc, machineUtilKey, CalculateCPUUtilization,
    CalculateMemoryUtilization, CalculateMachineMIPS,
    CalculateTaskCPUUtilization, MigrateVM, vmAggregateDemand, envC6, stC6,
    xMachine, xTask]

/-- Claim C7 (code_bug): at the fixture, the periodic check's overload path
selects powered-off machine 1 as migration destination — its target scan
checks CPU type and utilisation but never the S-state — and issues
`VM_Migrate(7, 1)` while machine 1 is in S5; the `assert(s_state == S0)`
inside `MigrateVM`, which the claim says cannot fail, is violated. -/
theorem periodicCheck_migrates_to_sleeping_machine :
    (PeriodicCheck envC7 stC7 0).2 = [DownCall.vmMigrate 7 1] ∧
    (envC7.machineInfo 1).s_state = MachineState.S5 ∧
    ¬ MigrateAssertHolds envC7 1 := by
  refine ⟨?_, by norm_num [envC7, xMachine], by
    norm_num [MigrateAssertHolds, envC7, xMachine]
    decide⟩
  norm_num [PeriodicCheck, pcMachineLoop, pcVmLoop, pcFindTarget,
    SortMachinesByUtilization, sortMachinesAux, insertAsc, machineUtilKey,
    CalculateCPUUtilization, CalculateMemoryUtilization, CalculateMachineMIPS,
    CalculateTaskCPUUtilization, MigrateVM, vmAggregateDemand, envC7, stC7,
    xMachine, xTask, Function.update]

/-- `MigrateVM` never reads or writes the pending-attachment table. -/
theorem migrateVM_withPA (env : Env) (st : SchedState) (vm target : Nat)
    (p : List PendingAttachment) :
    MigrateVM env (withPA st p) vm target =
      (withPA (MigrateVM env st vm target).1 p,
       (MigrateVM env st vm target).2) := rfl

/-- The periodic check's per-machine VM loop never consults the
pending-attachment table: replacing the table commutes with the loop. -/
theorem pcVmLoop_withPA (env : Env) (machine_id : Nat) (utilization : ℚ)
    (p : List PendingAttachment) :
    ∀ (V : List Nat) (st : SchedState),
      pcVmLoop env machine_id utilization (withPA st p) V =
        (withPA (pcVmLoop env machine_id utilization st V).1 p,
         (pcVmLoop env machine_id utilization st V).2) := by
  intro V
  induction V with
  | nil =>
    intro st
    rfl
  | cons vm rest ih =>
    intro st
    show pcVmLoop env machine_id utilization (withPA st p) (vm :: rest) = _
    simp only [pcVmLoop]
    have hmig : (withPA st p).migrating_vms = st.migrating_vms := rfl
    have hload : (withPA st p).mips_util_map = st.mips_util_map := rfl
    have hsort : SortMachinesByUtilization env (withPA st p) =
        SortMachinesByUtilization env st := rfl
    rw [hmig, hload, hsort]
    by_cases hcond : (env.vmInfo vm).machine_id = machine_id ∧
        vm ∉ st.migrating_vms
    · rw [if_pos hcond, if_pos hcond]
      cases hfind : pcFindTarget env st.mips_util_map machine_id
          (env.vmInfo vm).cpu utilization (SortMachinesByUtilization env st) with
      | none =>
        simp only []
        exact ih st
      | some target =>
        simp only []
        rw [migrateVM_withPA env st vm target p, ih (MigrateVM env st vm target).1]
    · rw [if_neg hcond, if_neg hcond]
      exact ih st

/-- The periodic check's machine loop never consults the pending-attachment
table: replacing the table commutes with the loop. -/
theorem pcMachineLoop_withPA (env : Env) (p : List PendingAttachment) :
    ∀ (L : List Nat) (st : SchedState),
      pcMachineLoop env (withPA st p) L =
        (withPA (pcMachineLoop env st L).1 p, (pcMachineLoop env st L).2) := by
  intro L
  induction L with
  | nil =>
    intro st
    rfl
  | cons machine_id rest ih =>
    intro st
    simp only [pcMachineLoop]
    have hload : (withPA st p).mips_util_map = st.mips_util_map := rfl
    have hvms : (withPA st p).vms = st.vms := rfl
    rw [hload, hvms]
    by_cases hover : st.mips_util_map machine_id /
        ((CalculateMachineMIPS env machine_id : ℚ)) > 9/10
    · rw [if_pos hover, if_pos hover,
        pcVmLoop_withPA env machine_id _ p st.vms st]
      rw [ih (pcVmLoop env machine_id
        (st.mips_util_map machine_id / ((CalculateMachineMIPS env machine_id : ℚ)))
        st st.vms).1]
    · rw [if_neg hover, if_neg hover]
      rw [ih st]

/-- Claim C8 (corrected): the S5 power-off requests of the periodic check
and of task completion are gated only on committed load and the machine's
current S-state — the pending-attachment table is never consulted (the
down-calls are identical for any table contents), so an S5 request can be
issued for a machine named in a pending attachment (see the
counterexample). -/
theorem powerOff_ignores_pending_attachments (env : Env) (st : SchedState)
    (now : Int) (task : Nat) (p : List PendingAttachment) :
    (PeriodicCheck env (withPA st p) now).2 = (PeriodicCheck env st now).2 ∧
    (TaskComplete env (withPA st p) now task).2 =
      (TaskComplete env st now task).2 := by
  constructor
  · show (pcMachineLoop env (withPA st p) (withPA st p).machines).2 =
      (pcMachineLoop env st st.machines).2
    have hm : (withPA st p).machines = st.machines := rfl
    rw [hm, pcMachineLoop_withPA env p st.machines st]
  · rfl

/-- Counterexample for C8: at the fixture, machine 0 is in S0 with zero
committed load while the pending-attachment table names machine 0; the
periodic check nevertheless requests `Machine_SetState(0, S5)` — the claim
that S5 is never requested for a machine holding pending attachments
fails. -/
theorem s5_requested_with_pending_attachment :
    (PeriodicCheck envC8 stC8 0).2 = [DownCall.setState 0 MachineState.S5] ∧
    stC8.pendingAttachments.map (fun pa => pa.machine_id) = [0] ∧
    (envC8.machineInfo 0).s_state = MachineState.S0 := by
  refine ⟨?_, by norm_num [stC8], by norm_num [envC8, xMachine]⟩
  norm_num [PeriodicCheck, pcMachineLoop, pcVmLoop, CalculateMachineMIPS,
    envC8, stC8, xMachine, xTask]
  decide

end CloudSim
